import Mathlib

/-!
Verification of the friend-binding workflow of fzuhelper-server
(`internal/user/service/bind_friend.go`, function `BindInvitation`).

The Go function is shallowly embedded as a pure function over an
environment of collaborator oracles (the cache and the relation store,
mocked exactly as in `bind_friend_test.go`).  The embedding records, in
order, every collaborator call made on the synchronous path, the returned
Go error (`none` = nil), and the list of actions the spawned goroutine
will perform in the background.
-/

namespace BindFriend

/-- A collaborator call made on the synchronous path of `BindInvitation`. -/
inductive Call where
  | IsKeyExist (key : String)
  | GetCodeStuIdMappingCache (key : String)
  | GetRelationByUserId (stuId friendId : String)
  | CreateRelation (stuId friendId : String)
deriving DecidableEq, Repr

/-- An action performed by the goroutine spawned on success.  In
`bind_friend.go` the goroutine performs exactly one operation:
`s.cache.User.SetUserFriendCache(s.ctx, friendId, stuId)`. -/
inductive BgAction where
  | SetUserFriendCache (friendId stuId : String)
deriving DecidableEq, Repr

/-- Responses of the collaborators, matching the Go signatures:
`IsKeyExist(ctx, key) bool`;
`GetCodeStuIdMappingCache(ctx, key) (string, error)`;
`GetRelationByUserId(ctx, stuId, friendId) (bool, *FollowRelation, error)`
(the middle return value is discarded by `BindInvitation`, so it is
modelled by the pair of the other two);
`CreateRelation(ctx, stuId, friendId) error`;
`SetUserFriendCache(ctx, stuId, friendId) error`.
Go errors are modelled as `Option String` (`none` = nil). -/
structure Env where
  IsKeyExist : String → Bool
  GetCodeStuIdMappingCache : String → String × Option String
  GetRelationByUserId : String → String → Bool × Option String
  CreateRelation : String → String → Option String
  SetUserFriendCache : String → String → Option String

/-- The observable outcome of a call to `BindInvitation`:
the returned error (`none` = nil), the ordered trace of synchronous
collaborator calls, and the actions handed to the spawned goroutine. -/
structure BindResult where
  res : Option String
  calls : List Call
  bg : List BgAction
deriving DecidableEq, Repr

/-- Shallow embedding of `UserService.BindInvitation` from
`internal/user/service/bind_friend.go`, line for line. -/
def BindInvitation (env : Env) (stuId code : String) : BindResult :=
  let mapKey := "code_mapping:" ++ code
  let exist := env.IsKeyExist mapKey
  if !exist then
    { res := some "service.BindInvitation: Invalid InvitationCode"
      calls := [Call.IsKeyExist mapKey], bg := [] }
  else
    match env.GetCodeStuIdMappingCache mapKey with
    | (_, some e) =>
      { res := some ("service.GetCodeStuIdMappingCode: " ++ e)
        calls := [Call.IsKeyExist mapKey, Call.GetCodeStuIdMappingCache mapKey]
        bg := [] }
    | (friendId, none) =>
      if friendId = stuId then
        { res := some "service.BindInvitation: cannot add yourself as friend"
          calls := [Call.IsKeyExist mapKey, Call.GetCodeStuIdMappingCache mapKey]
          bg := [] }
      else
        match env.GetRelationByUserId stuId friendId with
        | (_, some e) =>
          { res := some ("service.GetRelationByUserId: " ++ e)
            calls := [Call.IsKeyExist mapKey, Call.GetCodeStuIdMappingCache mapKey,
                      Call.GetRelationByUserId stuId friendId]
            bg := [] }
        | (ok, none) =>
          if ok then
            { res := some "service.BindInvitation: RelationShip Already Exist"
              calls := [Call.IsKeyExist mapKey, Call.GetCodeStuIdMappingCache mapKey,
                        Call.GetRelationByUserId stuId friendId]
              bg := [] }
          else
            match env.CreateRelation stuId friendId with
            | some e =>
              { res := some ("service.CreateRelation: " ++ e)
                calls := [Call.IsKeyExist mapKey, Call.GetCodeStuIdMappingCache mapKey,
                          Call.GetRelationByUserId stuId friendId,
                          Call.CreateRelation stuId friendId]
                bg := [] }
            | none =>
              { res := none
                calls := [Call.IsKeyExist mapKey, Call.GetCodeStuIdMappingCache mapKey,
                          Call.GetRelationByUserId stuId friendId,
                          Call.CreateRelation stuId friendId]
                bg := [BgAction.SetUserFriendCache friendId stuId] }

/-- The goroutine body: runs each background action against the
environment and returns the list of logged error messages
(`logger.Errorf("service. SetUserFriendCache: %v", err)`). -/
def runBackground (env : Env) : List BgAction → List String
  | [] => []
  | BgAction.SetUserFriendCache friendId stuId :: rest =>
    match env.SetUserFriendCache friendId stuId with
    | some e => ("service. SetUserFriendCache: " ++ e) :: runBackground env rest
    | none => runBackground env rest

/-- Does a synchronous call touch the cache (as opposed to the relation
store)?  `IsKeyExist` and `GetCodeStuIdMappingCache` are the cache reads;
`GetRelationByUserId` and `CreateRelation` go to the database. -/
def Call.isCacheOp : Call → Bool
  | Call.IsKeyExist _ => true
  | Call.GetCodeStuIdMappingCache _ => true
  | Call.GetRelationByUserId _ _ => false
  | Call.CreateRelation _ _ => false

/-- The full four-step call sequence of a run that reaches
`CreateRelation`; every actual trace is a take of it. -/
def fullCalls (env : Env) (stuId code : String) : List Call :=
  let mapKey := "code_mapping:" ++ code
  let friendId := (env.GetCodeStuIdMappingCache mapKey).1
  [Call.IsKeyExist mapKey, Call.GetCodeStuIdMappingCache mapKey,
   Call.GetRelationByUserId stuId friendId, Call.CreateRelation stuId friendId]

/-- Environment of the test file's "success" case: the code `"ABCDEF"`
exists and resolves to `"102300218"`, no relation exists, every store and
cache write succeeds. -/
def envSuccess : Env where
  IsKeyExist := fun _ => true
  GetCodeStuIdMappingCache := fun _ => ("102300218", none)
  GetRelationByUserId := fun _ _ => (false, none)
  CreateRelation := fun _ _ => none
  SetUserFriendCache := fun _ _ => none

/-- Like `envSuccess` but the background cache write fails. -/
def envBgFail : Env where
  IsKeyExist := fun _ => true
  GetCodeStuIdMappingCache := fun _ => ("102300218", none)
  GetRelationByUserId := fun _ _ => (false, none)
  CreateRelation := fun _ _ => none
  SetUserFriendCache := fun _ _ => some "cache error"

/-- Environment of the test file's "cache not exist" case; the mapping
would resolve to the requester themselves, exercising the short-circuit. -/
def envNoKey : Env where
  IsKeyExist := fun _ => false
  GetCodeStuIdMappingCache := fun _ => ("102300217", none)
  GetRelationByUserId := fun _ _ => (false, none)
  CreateRelation := fun _ _ => none
  SetUserFriendCache := fun _ _ => none

/-- Environment where the code resolves to the requester themselves. -/
def envSelf : Env where
  IsKeyExist := fun _ => true
  GetCodeStuIdMappingCache := fun _ => ("102300217", none)
  GetRelationByUserId := fun _ _ => (false, none)
  CreateRelation := fun _ _ => none
  SetUserFriendCache := fun _ _ => none

/-- Environment of the test file's "relation already exist" case. -/
def envDup : Env where
  IsKeyExist := fun _ => true
  GetCodeStuIdMappingCache := fun _ => ("102300218", none)
  GetRelationByUserId := fun _ _ => (true, none)
  CreateRelation := fun _ _ => none
  SetUserFriendCache := fun _ _ => none

/-- Predicate picking out the `CreateRelation` calls of a trace. -/
def Call.isCreateRelation : Call → Bool
  | Call.CreateRelation _ _ => true
  | _ => false

/-- Claim C1 (code behaviour at the failing input): at the test file's
"user friend list full" input — code `"ABCDEF"` exists and resolves to
`"102300218"`, no prior relation, store writes succeed, and the requester
`"102300217"` has a full friend list — `BindInvitation` nevertheless
returns success and invokes `CreateRelation`: the source contains no call
to `IsFriendNumsConfined` at all (the `Env` of the embedding has no
friend-count field because the function consults none), contradicting the
claim that a confined party yields a `FriendListFull` error with
`CreateRelation` never invoked. -/
theorem C1_code_behavior :
    (BindInvitation envSuccess "102300217" "ABCDEF").res = none ∧
    Call.CreateRelation "102300217" "102300218" ∈
      (BindInvitation envSuccess "102300217" "ABCDEF").calls := by
  decide

/-- Claim C2 (code behaviour at the failing input): on the successful
bind of code `"ABCDEF"` by `"102300217"`, the complete list of actions
handed to the spawned goroutine is the single friend-cache update —
`BgAction` is the exhaustive type of goroutine operations in the source,
and it has no mapping-removal constructor, so
`RemoveCodeStuIdMappingCache("code_mapping:ABCDEF")` is never called and
the consumed code is not deleted, contradicting the claim. -/
theorem C2_code_behavior :
    (BindInvitation envSuccess "102300217" "ABCDEF").bg =
      [BgAction.SetUserFriendCache "102300218" "102300217"] := by
  decide

/-- Claim C4: when the derived key `"code_mapping:" ++ code` is absent
from the cache, `BindInvitation` returns the Invalid InvitationCode
error, the only collaborator call is the `IsKeyExist` read (no mapping
resolution, no `GetRelationByUserId`, no `CreateRelation`), and no
background action is spawned. -/
theorem C4_invalid_code (env : Env) (stuId code : String)
    (h : env.IsKeyExist ("code_mapping:" ++ code) = false) :
    BindInvitation env stuId code =
      { res := some "service.BindInvitation: Invalid InvitationCode"
        calls := [Call.IsKeyExist ("code_mapping:" ++ code)], bg := [] } := by
  simp [BindInvitation, h]

theorem C4_witness :
    BindInvitation envNoKey "102300217" "ABCDEF" =
      { res := some "service.BindInvitation: Invalid InvitationCode"
        calls := [Call.IsKeyExist ("code_mapping:" ++ "ABCDEF")], bg := [] } :=
  C4_invalid_code envNoKey "102300217" "ABCDEF" rfl

/-- Claim C5: when the code exists and resolves to the requesting user
themselves, `BindInvitation` returns the self-binding error whatever the
relation store would answer (the store fields of `env` are unconstrained),
and the trace shows no store call: only the two cache reads occur. -/
theorem C5_self_binding (env : Env) (stuId code : String)
    (hk : env.IsKeyExist ("code_mapping:" ++ code) = true)
    (hm : env.GetCodeStuIdMappingCache ("code_mapping:" ++ code) = (stuId, none)) :
    BindInvitation env stuId code =
      { res := some "service.BindInvitation: cannot add yourself as friend"
        calls := [Call.IsKeyExist ("code_mapping:" ++ code),
                  Call.GetCodeStuIdMappingCache ("code_mapping:" ++ code)]
        bg := [] } := by
  simp [BindInvitation, hk, hm]

theorem C5_witness :
    BindInvitation envSelf "102300217" "ABCDEF" =
      { res := some "service.BindInvitation: cannot add yourself as friend"
        calls := [Call.IsKeyExist ("code_mapping:" ++ "ABCDEF"),
                  Call.GetCodeStuIdMappingCache ("code_mapping:" ++ "ABCDEF")]
        bg := [] } :=
  C5_self_binding envSelf "102300217" "ABCDEF" rfl rfl

/-- Claim C6: when the code exists, resolves to a distinct friend, and
the store reports without error that the relation already exists,
`BindInvitation` returns the RelationShip Already Exist error and the
trace ends at the relation lookup: `CreateRelation` is never invoked and
no background action is spawned. -/
theorem C6_relation_already_exists (env : Env) (stuId code friendId : String)
    (hk : env.IsKeyExist ("code_mapping:" ++ code) = true)
    (hm : env.GetCodeStuIdMappingCache ("code_mapping:" ++ code) = (friendId, none))
    (hne : friendId ≠ stuId)
    (hr : env.GetRelationByUserId stuId friendId = (true, none)) :
    BindInvitation env stuId code =
      { res := some "service.BindInvitation: RelationShip Already Exist"
        calls := [Call.IsKeyExist ("code_mapping:" ++ code),
                  Call.GetCodeStuIdMappingCache ("code_mapping:" ++ code),
                  Call.GetRelationByUserId stuId friendId]
        bg := [] } := by
  simp [BindInvitation, hk, hm, hne, hr]

theorem C6_witness :
    BindInvitation envDup "102300217" "ABCDEF" =
      { res := some "service.BindInvitation: RelationShip Already Exist"
        calls := [Call.IsKeyExist ("code_mapping:" ++ "ABCDEF"),
                  Call.GetCodeStuIdMappingCache ("code_mapping:" ++ "ABCDEF"),
                  Call.GetRelationByUserId "102300217" "102300218"]
        bg := [] } :=
  C6_relation_already_exists envDup "102300217" "ABCDEF" "102300218" rfl rfl
    (by decide) rfl

/-- Environment of the test file's "cache get error" case. -/
def envMapErr : Env :=
  { envSuccess with GetCodeStuIdMappingCache := fun _ => ("", some "internal service error") }

/-- Environment of the test file's "db relation check error" case. -/
def envRelErr : Env :=
  { envSuccess with GetRelationByUserId := fun _ _ => (false, some "invalid data") }

/-- Environment of the test file's "db create error" case. -/
def envCreateErr : Env :=
  { envSuccess with CreateRelation := fun _ _ => some "invalid data" }

/-- Claim C3: when the code exists, resolves to a distinct friend, no
relation exists, and the store write succeeds, `BindInvitation` returns
nil, and the trace contains exactly one `CreateRelation` call, with
arguments `(stuId, friendId)` in that order.  The field
`env.SetUserFriendCache` (the background cache update) is unconstrained
by the hypotheses, so the nil return does not depend on the background
update's outcome: the caller does not wait for it. -/
theorem C3_success_creates_once (env : Env) (stuId code friendId : String)
    (hk : env.IsKeyExist ("code_mapping:" ++ code) = true)
    (hm : env.GetCodeStuIdMappingCache ("code_mapping:" ++ code) = (friendId, none))
    (hne : friendId ≠ stuId)
    (hr : env.GetRelationByUserId stuId friendId = (false, none))
    (hc : env.CreateRelation stuId friendId = none) :
    (BindInvitation env stuId code).res = none ∧
    (BindInvitation env stuId code).calls.filter Call.isCreateRelation
      = [Call.CreateRelation stuId friendId] := by
  simp [BindInvitation, hk, hm, hne, hr, hc, List.filter, Call.isCreateRelation]

theorem C3_witness :
    (BindInvitation envSuccess "102300217" "ABCDEF").res = none ∧
    (BindInvitation envSuccess "102300217" "ABCDEF").calls.filter Call.isCreateRelation
      = [Call.CreateRelation "102300217" "102300218"] :=
  C3_success_creates_once envSuccess "102300217" "ABCDEF" "102300218" rfl rfl
    (by decide) rfl rfl

/-- Claim C7: the synchronous outcome of `BindInvitation` is independent
of the background cache write.  Two environments that agree on every
collaborator except `SetUserFriendCache` (the only operation the spawned
goroutine performs) produce identical synchronous results — same returned
error or nil, same call trace, same spawned actions — even though the
background runs may succeed in one and fail in the other. -/
theorem C7_sync_independent_of_bg (e1 e2 : Env) (stuId code : String)
    (h1 : e1.IsKeyExist = e2.IsKeyExist)
    (h2 : e1.GetCodeStuIdMappingCache = e2.GetCodeStuIdMappingCache)
    (h3 : e1.GetRelationByUserId = e2.GetRelationByUserId)
    (h4 : e1.CreateRelation = e2.CreateRelation) :
    BindInvitation e1 stuId code = BindInvitation e2 stuId code := by
  simp [BindInvitation, h1, h2, h3, h4]

theorem C7_witness :
    BindInvitation envSuccess "102300217" "ABCDEF"
      = BindInvitation envBgFail "102300217" "ABCDEF" ∧
    runBackground envBgFail (BindInvitation envBgFail "102300217" "ABCDEF").bg
      ≠ runBackground envSuccess (BindInvitation envSuccess "102300217" "ABCDEF").bg :=
  ⟨C7_sync_independent_of_bg envSuccess envBgFail "102300217" "ABCDEF" rfl rfl rfl rfl,
   by decide⟩

/-- Claim C8: every collaborator error on the synchronous path is
surfaced wrapped with a distinct label and the underlying cause appended
(Go `fmt.Errorf` with `%w`): a mapping-resolution error comes back as
`service.GetCodeStuIdMappingCode: <cause>`, a relation-lookup error as
`service.GetRelationByUserId: <cause>`, and a relation-creation error as
`service.CreateRelation: <cause>`, and in each case that wrapped error is
exactly what `BindInvitation` returns. -/
theorem C8_wrapped_errors (env : Env) (stuId code friendId e : String) :
    (env.IsKeyExist ("code_mapping:" ++ code) = true →
      (env.GetCodeStuIdMappingCache ("code_mapping:" ++ code)).2 = some e →
      (BindInvitation env stuId code).res
        = some ("service.GetCodeStuIdMappingCode: " ++ e)) ∧
    (env.IsKeyExist ("code_mapping:" ++ code) = true →
      env.GetCodeStuIdMappingCache ("code_mapping:" ++ code) = (friendId, none) →
      friendId ≠ stuId →
      (env.GetRelationByUserId stuId friendId).2 = some e →
      (BindInvitation env stuId code).res
        = some ("service.GetRelationByUserId: " ++ e)) ∧
    (env.IsKeyExist ("code_mapping:" ++ code) = true →
      env.GetCodeStuIdMappingCache ("code_mapping:" ++ code) = (friendId, none) →
      friendId ≠ stuId →
      env.GetRelationByUserId stuId friendId = (false, none) →
      env.CreateRelation stuId friendId = some e →
      (BindInvitation env stuId code).res
        = some ("service.CreateRelation: " ++ e)) := by
  refine ⟨?_, ?_, ?_⟩
  · intro hk hm
    rcases hp : env.GetCodeStuIdMappingCache ("code_mapping:" ++ code) with ⟨fid, e1⟩
    rw [hp] at hm
    simp only at hm
    subst hm
    simp [BindInvitation, hk, hp]
  · intro hk hm hne hr
    rcases hq : env.GetRelationByUserId stuId friendId with ⟨ok, e2⟩
    rw [hq] at hr
    simp only at hr
    subst hr
    simp [BindInvitation, hk, hm, hne, hq]
  · intro hk hm hne hr hc
    simp [BindInvitation, hk, hm, hne, hr, hc]

theorem C8_witness :
    (BindInvitation envMapErr "102300217" "ABCDEF").res
      = some ("service.GetCodeStuIdMappingCode: " ++ "internal service error") ∧
    (BindInvitation envRelErr "102300217" "ABCDEF").res
      = some ("service.GetRelationByUserId: " ++ "invalid data") ∧
    (BindInvitation envCreateErr "102300217" "ABCDEF").res
      = some ("service.CreateRelation: " ++ "invalid data") :=
  ⟨(C8_wrapped_errors envMapErr "102300217" "ABCDEF" "x" "internal service error").1
      rfl rfl,
   (C8_wrapped_errors envRelErr "102300217" "ABCDEF" "102300218" "invalid data").2.1
      rfl rfl (by decide) rfl,
   (C8_wrapped_errors envCreateErr "102300217" "ABCDEF" "102300218" "invalid data").2.2
      rfl rfl (by decide) rfl rfl⟩

/-- Claim C9: the checks run strictly in the source order — key
existence, mapping resolution, self-binding guard, duplicate-relation
lookup, relation creation — short-circuiting at the first failure: for
every environment the synchronous call trace is an initial segment
(`List.take`) of the full four-call sequence `fullCalls`, and in
particular an absent key yields the Invalid InvitationCode error
regardless of all later collaborators (even when the mapping would
resolve to the requester themselves). -/
theorem C9_ordered_short_circuit (env : Env) (stuId code : String) :
    (∃ n, (BindInvitation env stuId code).calls
            = (fullCalls env stuId code).take n) ∧
    (env.IsKeyExist ("code_mapping:" ++ code) = false →
      (BindInvitation env stuId code).res
        = some "service.BindInvitation: Invalid InvitationCode") := by
  constructor
  · rcases hp : env.GetCodeStuIdMappingCache ("code_mapping:" ++ code) with ⟨fid, e1⟩
    cases hk : env.IsKeyExist ("code_mapping:" ++ code) with
    | false => exact ⟨1, by simp [BindInvitation, fullCalls, hk, hp]⟩
    | true =>
      cases e1 with
      | some e => exact ⟨2, by simp [BindInvitation, fullCalls, hk, hp]⟩
      | none =>
        by_cases hfs : fid = stuId
        · exact ⟨2, by simp [BindInvitation, fullCalls, hk, hp, hfs]⟩
        · rcases hq : env.GetRelationByUserId stuId fid with ⟨ok, e2⟩
          cases e2 with
          | some e =>
            exact ⟨3, by simp [BindInvitation, fullCalls, hk, hp, hfs, hq]⟩
          | none =>
            cases ok with
            | true =>
              exact ⟨3, by simp [BindInvitation, fullCalls, hk, hp, hfs, hq]⟩
            | false =>
              cases hc : env.CreateRelation stuId fid with
              | some e =>
                exact ⟨4, by simp [BindInvitation, fullCalls, hk, hp, hfs, hq, hc]⟩
              | none =>
                exact ⟨4, by simp [BindInvitation, fullCalls, hk, hp, hfs, hq, hc]⟩
  · intro hk
    simp [BindInvitation, hk]

theorem C9_witness :
    (BindInvitation envNoKey "102300217" "ABCDEF").res
      = some "service.BindInvitation: Invalid InvitationCode" :=
  (C9_ordered_short_circuit envNoKey "102300217" "ABCDEF").2 rfl

/-- Claim C10: the synchronous path never writes to the cache.  Every
cache operation in the synchronous trace is one of the two reads
(`IsKeyExist` or `GetCodeStuIdMappingCache` on the derived key); on every
error return the list of background actions is empty, so the workflow
leaves the cache unchanged; and only on a nil return is the single cache
write (`SetUserFriendCache` for the resolved friend) handed to the
detached goroutine. -/
theorem C10_sync_cache_frame (env : Env) (stuId code : String) :
    (∀ c ∈ (BindInvitation env stuId code).calls, c.isCacheOp = true →
      c = Call.IsKeyExist ("code_mapping:" ++ code) ∨
      c = Call.GetCodeStuIdMappingCache ("code_mapping:" ++ code)) ∧
    ((BindInvitation env stuId code).res ≠ none →
      (BindInvitation env stuId code).bg = []) ∧
    ((BindInvitation env stuId code).res = none →
      (BindInvitation env stuId code).bg
        = [BgAction.SetUserFriendCache
            (env.GetCodeStuIdMappingCache ("code_mapping:" ++ code)).1 stuId]) := by
  rcases hp : env.GetCodeStuIdMappingCache ("code_mapping:" ++ code) with ⟨fid, e1⟩
  cases hk : env.IsKeyExist ("code_mapping:" ++ code) with
  | false =>
    refine ⟨?_, ?_, ?_⟩ <;> simp [BindInvitation, hk, hp, Call.isCacheOp]
  | true =>
    cases e1 with
    | some e =>
      refine ⟨?_, ?_, ?_⟩ <;> simp [BindInvitation, hk, hp, Call.isCacheOp]
    | none =>
      by_cases hfs : fid = stuId
      · refine ⟨?_, ?_, ?_⟩ <;> simp [BindInvitation, hk, hp, hfs, Call.isCacheOp]
      · rcases hq : env.GetRelationByUserId stuId fid with ⟨ok, e2⟩
        cases e2 with
        | some e =>
          refine ⟨?_, ?_, ?_⟩ <;>
            simp [BindInvitation, hk, hp, hfs, hq, Call.isCacheOp]
        | none =>
          cases ok with
          | true =>
            refine ⟨?_, ?_, ?_⟩ <;>
              simp [BindInvitation, hk, hp, hfs, hq, Call.isCacheOp]
          | false =>
            cases hc : env.CreateRelation stuId fid with
            | some e =>
              refine ⟨?_, ?_, ?_⟩ <;>
                simp [BindInvitation, hk, hp, hfs, hq, hc, Call.isCacheOp]
            | none =>
              refine ⟨?_, ?_, ?_⟩ <;>
                simp [BindInvitation, hk, hp, hfs, hq, hc, Call.isCacheOp]

theorem C10_witness :
    (BindInvitation envDup "102300217" "ABCDEF").bg = [] :=
  (C10_sync_cache_frame envDup "102300217" "ABCDEF").2.1 (by decide)

end BindFriend
